import Mathlib

/-!
Verification development for the trade-calculation core of the
trade-scope extension (src/lib/tradeCalc.ts).

The TypeScript core is a pure, synchronous function over IEEE doubles.
We embed it shallowly over exact rationals (ℚ): every JavaScript numeric
operation used by the core (+, -, *, /, Math.floor, Math.ceil, Math.max,
Number.toFixed(8)) is total and exact on ℚ, `Number.isFinite` is
identically true (the guarded divisions are all by positive quantities on
every reachable path), and thrown errors become `Except.error` with the
source's message strings.  Optional fields become `Option`, and the
`RANGE_UNKNOWN` string sentinel becomes a dedicated constructor of an
explicit sum type.
-/

inductive TradeDirection where
  | long
  | short
deriving DecidableEq

inductive StopType where
  | fixedPercent
  | atrMultiple
  | fixedPoints
deriving DecidableEq

inductive SetupType where
  | breakout
  | falseBreakout
deriving DecidableEq

/-- Either a numeric range/stop ratio, or the RANGE_UNKNOWN sentinel. -/
inductive RangeRatio where
  | num (value : ℚ)
  | unknown
deriving DecidableEq

structure InstrumentProfile where
  symbol : String
  contractMultiplier : ℚ
  lotStep : ℚ
  minLot : ℚ
  feePerUnit : Option ℚ
  priceTick : Option ℚ
deriving DecidableEq

inductive RiskMode where
  | riskCash
  | riskPercent
  | notional
deriving DecidableEq

structure RiskProfile where
  mode : RiskMode
  accountSize : Option ℚ
  riskCash : Option ℚ
  riskPercent : Option ℚ
  notional : Option ℚ
deriving DecidableEq

/-- The stop field of TradeInput: a discriminant plus the optional
per-method parameters. -/
structure StopSpec where
  type : StopType
  percent : Option ℚ
  atrMultiple : Option ℚ
  points : Option ℚ
deriving DecidableEq

structure TradeInput where
  direction : TradeDirection
  setup : SetupType
  level : ℚ
  atr : ℚ
  rrMultiple : ℚ
  stop : StopSpec
  bufferRatio : ℚ
  rangePassed : Option ℚ
  currentPrice : Option ℚ
  enableAtrFilter : Option Bool
  instrument : InstrumentProfile
  riskProfile : RiskProfile
deriving DecidableEq

structure PositionSummary where
  riskCash : ℚ
  estFees : ℚ
  pnlAtTp : ℚ
  pnlAtSl : ℚ
deriving DecidableEq

structure TradeResult where
  direction : TradeDirection
  setup : SetupType
  level : ℚ
  stop : ℚ
  buffer : ℚ
  tvx : ℚ
  slPrice : ℚ
  tpPrice : ℚ
  rrMultiple : ℚ
  atrOverStop : ℚ
  rangeOverStop : RangeRatio
  hasFourStops : Bool
  stopWithinAtrFilter : Bool
  warnings : List String
  quantity : ℚ
  notional : ℚ
  belowMinLot : Bool
  positionSummary : PositionSummary
  currentPriceToTvx : Option ℚ
  stopAtrPercent : ℚ
deriving DecidableEq

structure CalcMeta where
  usedRiskCash : ℚ
  usedNotional : Option ℚ
deriving DecidableEq

structure TradeCalcResponse where
  result : TradeResult
  meta : CalcMeta
deriving DecidableEq

def msgLevel : String := "Level must be greater than zero"

def msgAtr : String := "ATR must be greater than zero"

def msgRr : String := "Risk/reward multiple must be greater than zero"

def msgBuffer : String := "Buffer ratio must be non-negative"

def msgMultiplier : String := "Contract multiplier must be greater than zero"

def msgStop : String := "Computed stop must be greater than zero"

def msgUnitCost : String := "Calculated unit cost must be positive and finite"

def warnAtr : String := "ATR/Stop < 4"

def warnRange : String := "Range/Stop < 4"

def warnStopFilter : String := "Stop exceeds 20% ATR limit"

def warnMinLot : String := "Qty is below minimum lot"

/-- The epsilon 1e-9 used by the lot-step rounding helpers. -/
def EPS : ℚ := 1 / 1000000000

/-- Model of `Number(x.toFixed(8))`: round to 8 decimal places.  All values
the source feeds to it are nonnegative, where toFixed rounds half up. -/
def round8 (x : ℚ) : ℚ := (⌊x * 100000000 + 1 / 2⌋ : ℚ) / 100000000

/-- roundDownToStep from the source.  `Number.isFinite(rounded)` is
identically true over ℚ, so the 0-fallback for a non-finite value is dead. -/
def roundDownToStep (qty step : ℚ) : ℚ :=
  if step ≤ 0 then max qty 0
  else
    let scaled := qty / step
    let floored : ℤ := ⌊scaled + EPS⌋
    let rounded : ℚ := (floored : ℚ) * step
    let normalized := round8 rounded
    if normalized < 0 then 0 else normalized

/-- roundUpToStep from the source, with the same conventions. -/
def roundUpToStep (qty step : ℚ) : ℚ :=
  if step ≤ 0 then max qty 0
  else
    let scaled := qty / step
    let ceiled : ℤ := ⌈scaled - EPS⌉
    let rounded : ℚ := (ceiled : ℚ) * step
    let normalized := round8 rounded
    if normalized < 0 then 0 else normalized

/-- computeStop from the source: the three stop-sizing formulas with the
source's `??` defaults (0.3, 0.5 and 0). -/
def computeStop (input : TradeInput) : ℚ :=
  match input.stop.type with
  | StopType.fixedPercent => (input.stop.percent.getD (3 / 10)) / 100 * input.level
  | StopType.atrMultiple => (input.stop.atrMultiple.getD (1 / 2)) * input.atr
  | StopType.fixedPoints => input.stop.points.getD 0

def computeBuffer (stop bufferRatio : ℚ) : ℚ := stop * bufferRatio

def computeTvx (input : TradeInput) (buffer : ℚ) : ℚ :=
  match input.direction with
  | TradeDirection.long => input.level + buffer
  | TradeDirection.short => input.level - buffer

def computeSlPrice (input : TradeInput) (stop : ℚ) : ℚ :=
  match input.direction with
  | TradeDirection.long => input.level - stop
  | TradeDirection.short => input.level + stop

def computeTpPrice (input : TradeInput) (tvx stop : ℚ) : ℚ :=
  match input.direction with
  | TradeDirection.long => tvx + input.rrMultiple * stop
  | TradeDirection.short => tvx - input.rrMultiple * stop

def costPerUnit (stopValuePerUnit feePerUnit : ℚ) : ℚ :=
  stopValuePerUnit + feePerUnit

/-- The unit cost computed at the top of calcQuantity:
`stop * contractMultiplier + (feePerUnit ?? 0)`. -/
def unitCostOf (input : TradeInput) (stop : ℚ) : ℚ :=
  costPerUnit (stop * input.instrument.contractMultiplier)
    (input.instrument.feePerUnit.getD 0)

/-- qtyRaw of calcQuantity: the pre-lot-rounding quantity by risk mode,
clamped to be nonnegative. -/
def rawQuantity (input : TradeInput) (unitCost : ℚ) : ℚ :=
  match input.riskProfile.mode with
  | RiskMode.riskCash =>
      max ((⌊(input.riskProfile.riskCash.getD 0) / unitCost⌋ : ℤ) : ℚ) 0
  | RiskMode.riskPercent =>
      max ((⌊(input.riskProfile.accountSize.getD 0) *
        (input.riskProfile.riskPercent.getD 0) / 100 / unitCost⌋ : ℤ) : ℚ) 0
  | RiskMode.notional =>
      if 0 < input.level * input.instrument.contractMultiplier then
        max ((⌊(input.riskProfile.notional.getD 0) /
          (input.level * input.instrument.contractMultiplier)⌋ : ℤ) : ℚ) 0
      else 0

/-- `step` of calcQuantity: lotStep when positive, else 1. -/
def stepOf (input : TradeInput) : ℚ :=
  if 0 < input.instrument.lotStep then input.instrument.lotStep else 1

/-- `minLotAligned` of calcQuantity: `max(roundUpToStep(minLot, step), minLot)`
when minLot is positive, else 0. -/
def minLotAlignedOf (input : TradeInput) : ℚ :=
  if 0 < input.instrument.minLot then
    max (roundUpToStep input.instrument.minLot (stepOf input))
      input.instrument.minLot
  else 0

structure QtyResult where
  quantity : ℚ
  usedRiskCash : ℚ
  notional : ℚ
  estFees : ℚ
  belowMinLot : Bool
deriving DecidableEq

/-- The success branch of calcQuantity: everything after the unit-cost
guard (lot rounding, min-lot floor, final 8-decimal re-round, fees,
notional, used risk cash). -/
def qtyResultOf (input : TradeInput) (stop : ℚ) : QtyResult :=
  let unitCost := unitCostOf input stop
  let qtyRaw := rawQuantity input unitCost
  let step := stepOf input
  let roundedQty := roundDownToStep qtyRaw step
  let minLotAligned := minLotAlignedOf input
  let quantity :=
    round8 (if 0 < minLotAligned then max roundedQty minLotAligned else roundedQty)
  let belowMinLot :=
    decide (0 < minLotAligned ∧ roundedQty < minLotAligned ∧ 0 < quantity)
  { quantity := quantity
    usedRiskCash := quantity * unitCost
    notional := quantity * input.level * input.instrument.contractMultiplier
    estFees := quantity * (input.instrument.feePerUnit.getD 0)
    belowMinLot := belowMinLot }

/-- calcQuantity from the source.  The `!Number.isFinite(unitCost)` half of
the guard is identically false over ℚ, leaving `unitCost <= 0`. -/
def calcQuantity (input : TradeInput) (stop : ℚ) : Except String QtyResult :=
  if unitCostOf input stop ≤ 0 then Except.error msgUnitCost
  else Except.ok (qtyResultOf input stop)

/-- The argument record of collectWarnings.  `rangeCheckFailed` is an
optional field in the source, set only when the range ratio is known. -/
structure WarningFlags where
  atrCheckFailed : Bool
  rangeCheckFailed : Option Bool
  stopFilterFailed : Bool
  belowMinLot : Bool
deriving DecidableEq

/-- collectWarnings from the source: the four fixed strings appended in
the source's fixed order, each gated by its flag (an absent
rangeCheckFailed reads as false). -/
def collectWarnings (r : WarningFlags) : List String :=
  (if r.atrCheckFailed then [warnAtr] else []) ++
  (if r.rangeCheckFailed.getD false then [warnRange] else []) ++
  (if r.stopFilterFailed then [warnStopFilter] else []) ++
  (if r.belowMinLot then [warnMinLot] else [])

/-- Assembly of the successful response (the body of calculateTrade after
its guards), given the block returned by calcQuantity.  `stopAtrPercent`
mirrors the source's `atr > 0 ? (stop/atr)*100 : Infinity`, whose Infinity
branch is unreachable behind the `atr <= 0` guard.  Note the source's
`!input.enableAtrFilter`: an absent field behaves exactly like `false`. -/
def buildResponse (input : TradeInput) (q : QtyResult) : TradeCalcResponse :=
  let stop := computeStop input
  let buffer := computeBuffer stop input.bufferRatio
  let tvx := computeTvx input buffer
  let slPrice := computeSlPrice input stop
  let tpPrice := computeTpPrice input tvx stop
  let contractMultiplier := input.instrument.contractMultiplier
  let atrOverStop := input.atr / stop
  let rangeOverStop : RangeRatio :=
    match input.rangePassed with
    | some r => RangeRatio.num (r / stop)
    | none => RangeRatio.unknown
  let hasRange := input.rangePassed.isSome
  let atrCheckFailed := decide (atrOverStop < 4)
  let rangeCheckFailedFlag :=
    match input.rangePassed with
    | some r => decide (r / stop < 4)
    | none => false
  let hasFourStops := !atrCheckFailed && (!hasRange || !rangeCheckFailedFlag)
  let stopWithinFilter :=
    !(input.enableAtrFilter.getD false) || decide (stop ≤ 1 / 5 * input.atr)
  let warnings := collectWarnings
    { atrCheckFailed := atrCheckFailed
      rangeCheckFailed := if hasRange then some rangeCheckFailedFlag else none
      stopFilterFailed := !stopWithinFilter
      belowMinLot := q.belowMinLot }
  let tpDistance :=
    match input.direction with
    | TradeDirection.long => tpPrice - tvx
    | TradeDirection.short => tvx - tpPrice
  let slDistance :=
    match input.direction with
    | TradeDirection.long => tvx - slPrice
    | TradeDirection.short => slPrice - tvx
  { result :=
      { direction := input.direction
        setup := input.setup
        level := input.level
        stop := stop
        buffer := buffer
        tvx := tvx
        slPrice := slPrice
        tpPrice := tpPrice
        rrMultiple := input.rrMultiple
        atrOverStop := atrOverStop
        rangeOverStop := rangeOverStop
        hasFourStops := hasFourStops
        stopWithinAtrFilter := stopWithinFilter
        warnings := warnings
        quantity := q.quantity
        notional := q.notional
        belowMinLot := q.belowMinLot
        positionSummary :=
          { riskCash := q.usedRiskCash
            estFees := q.estFees
            pnlAtTp := tpDistance * q.quantity * contractMultiplier
            pnlAtSl := -slDistance * q.quantity * contractMultiplier }
        currentPriceToTvx := input.currentPrice.map (fun cp => cp - tvx)
        stopAtrPercent := stop / input.atr * 100 }
    meta :=
      { usedRiskCash := q.usedRiskCash
        usedNotional :=
          match input.riskProfile.mode with
          | RiskMode.notional => some q.notional
          | RiskMode.riskCash => none
          | RiskMode.riskPercent => none } }

/-- calculateTrade from the source: the five base-input guards, the
computed-stop guard, then calcQuantity (whose unit-cost guard may fail),
then the assembled response. -/
def calculateTrade (input : TradeInput) : Except String TradeCalcResponse :=
  if input.level ≤ 0 then Except.error msgLevel
  else if input.atr ≤ 0 then Except.error msgAtr
  else if input.rrMultiple ≤ 0 then Except.error msgRr
  else if input.bufferRatio < 0 then Except.error msgBuffer
  else if input.instrument.contractMultiplier ≤ 0 then Except.error msgMultiplier
  else if computeStop input ≤ 0 then Except.error msgStop
  else
    match calcQuantity input (computeStop input) with
    | Except.error e => Except.error e
    | Except.ok q => Except.ok (buildResponse input q)

/-- Base-input validity: exactly the complement of the five fatal
base-input conditions of the validator. -/
def BaseValid (input : TradeInput) : Prop :=
  0 < input.level ∧ 0 < input.atr ∧ 0 < input.rrMultiple ∧
    0 ≤ input.bufferRatio ∧ 0 < input.instrument.contractMultiplier

/-- Success inversion for calculateTrade: a successful call is exactly one
that passes the five base guards, the positive-stop guard and the
positive-unit-cost guard, and its response is the assembled one. -/
theorem calculateTrade_ok_iff (input : TradeInput) (resp : TradeCalcResponse) :
    calculateTrade input = Except.ok resp ↔
      (BaseValid input ∧ 0 < computeStop input ∧
        0 < unitCostOf input (computeStop input) ∧
        resp = buildResponse input (qtyResultOf input (computeStop input))) := by
  unfold calculateTrade calcQuantity BaseValid
  split_ifs with h1 h2 h3 h4 h5 h6 h7
  all_goals simp_all [not_le, not_lt, eq_comm]

theorem round8_nonneg {x : ℚ} (hx : 0 ≤ x) : 0 ≤ round8 x := by
  unfold round8
  have h0 : (0 : ℚ) ≤ x * 100000000 + 1 / 2 := by positivity
  have h1 : (0 : ℤ) ≤ ⌊x * 100000000 + 1 / 2⌋ := Int.floor_nonneg.mpr h0
  have h2 : (0 : ℚ) ≤ (⌊x * 100000000 + 1 / 2⌋ : ℚ) := by exact_mod_cast h1
  positivity

theorem round8_idem (x : ℚ) : round8 (round8 x) = round8 x := by
  unfold round8
  set j : ℤ := ⌊x * 100000000 + 1 / 2⌋ with hj
  have h1 : (j : ℚ) / 100000000 * 100000000 + 1 / 2 = (j : ℚ) + 1 / 2 := by
    field_simp
  rw [h1]
  have h2 : ⌊(j : ℚ) + 1 / 2⌋ = j + ⌊(1 : ℚ) / 2⌋ := Int.floor_int_add j (1 / 2)
  have h3 : ⌊(1 : ℚ) / 2⌋ = 0 := by norm_num
  rw [h2, h3, add_zero]

theorem round8_close (x : ℚ) : |round8 x - x| ≤ 1 / 200000000 := by
  unfold round8
  set y : ℚ := x * 100000000 with hy
  have h1 : (⌊y + 1 / 2⌋ : ℚ) ≤ y + 1 / 2 := Int.floor_le _
  have h2 : y + 1 / 2 - 1 < (⌊y + 1 / 2⌋ : ℚ) := Int.sub_one_lt_floor _
  rw [abs_le]
  constructor
  · rw [hy]
    rw [div_sub' _ _ _ (by norm_num : (100000000 : ℚ) ≠ 0)]
    rw [le_div_iff (by norm_num : (0 : ℚ) < 100000000)]
    linarith
  · rw [hy]
    rw [div_sub' _ _ _ (by norm_num : (100000000 : ℚ) ≠ 0)]
    rw [div_le_iff (by norm_num : (0 : ℚ) < 100000000)]
    linarith

theorem roundDownToStep_nonneg (qty step : ℚ) : 0 ≤ roundDownToStep qty step := by
  simp only [roundDownToStep]
  split_ifs with h1 h2
  · exact le_max_right _ _
  · exact le_refl (0 : ℚ)
  · exact le_of_not_lt h2

theorem roundUpToStep_nonneg (qty step : ℚ) : 0 ≤ roundUpToStep qty step := by
  simp only [roundUpToStep]
  split_ifs with h1 h2
  · exact le_max_right _ _
  · exact le_refl (0 : ℚ)
  · exact le_of_not_lt h2

/-- With a positive step and a nonnegative input, roundDownToStep returns
the 8-decimal rounding of a natural multiple of the step. -/
theorem roundDownToStep_mul (qty step : ℚ) (hstep : 0 < step) (hqty : 0 ≤ qty) :
    ∃ k : ℕ, roundDownToStep qty step = round8 ((k : ℚ) * step) := by
  unfold roundDownToStep
  rw [if_neg (not_le.mpr hstep)]
  have hsc : (0 : ℚ) ≤ qty / step + EPS := by
    have := div_nonneg hqty hstep.le
    unfold EPS
    linarith
  have hfl : (0 : ℤ) ≤ ⌊qty / step + EPS⌋ := Int.floor_nonneg.mpr hsc
  have hcast : ((⌊qty / step + EPS⌋ : ℤ) : ℚ) = ((⌊qty / step + EPS⌋.toNat : ℕ) : ℚ) := by
    exact_mod_cast (Int.toNat_of_nonneg hfl).symm
  have hge : 0 ≤ round8 ((⌊qty / step + EPS⌋ : ℚ) * step) := by
    apply round8_nonneg
    apply mul_nonneg _ hstep.le
    exact_mod_cast hfl
  refine ⟨⌊qty / step + EPS⌋.toNat, ?_⟩
  simp only [hcast] at hge ⊢
  rw [if_neg (not_lt.mpr hge)]

/-- With a positive step and a positive input, roundUpToStep returns
the 8-decimal rounding of a natural multiple of the step. -/
theorem roundUpToStep_mul (qty step : ℚ) (hstep : 0 < step) (hqty : 0 < qty) :
    ∃ k : ℕ, roundUpToStep qty step = round8 ((k : ℚ) * step) := by
  unfold roundUpToStep
  rw [if_neg (not_le.mpr hstep)]
  have hsc : (-1 : ℚ) < qty / step - EPS := by
    have h1 : 0 < qty / step := div_pos hqty hstep
    unfold EPS
    linarith
  have hcl : (0 : ℤ) ≤ ⌈qty / step - EPS⌉ := by
    have := Int.lt_ceil.mpr (by exact_mod_cast hsc : ((-1 : ℤ) : ℚ) < qty / step - EPS)
    omega
  have hcast : ((⌈qty / step - EPS⌉ : ℤ) : ℚ) = ((⌈qty / step - EPS⌉.toNat : ℕ) : ℚ) := by
    exact_mod_cast (Int.toNat_of_nonneg hcl).symm
  have hge : 0 ≤ round8 ((⌈qty / step - EPS⌉ : ℚ) * step) := by
    apply round8_nonneg
    apply mul_nonneg _ hstep.le
    exact_mod_cast hcl
  refine ⟨⌈qty / step - EPS⌉.toNat, ?_⟩
  simp only [hcast] at hge ⊢
  rw [if_neg (not_lt.mpr hge)]

theorem rawQuantity_nonneg (input : TradeInput) (unitCost : ℚ) :
    0 ≤ rawQuantity input unitCost := by
  unfold rawQuantity
  match input.riskProfile.mode with
  | RiskMode.riskCash => exact le_max_right _ _
  | RiskMode.riskPercent => exact le_max_right _ _
  | RiskMode.notional =>
    simp only
    split_ifs
    · exact le_max_right _ _
    · exact le_refl 0

theorem stepOf_pos (input : TradeInput) : 0 < stepOf input := by
  unfold stepOf
  split_ifs with h
  · exact h
  · norm_num

theorem minLotAlignedOf_nonneg (input : TradeInput) : 0 ≤ minLotAlignedOf input := by
  unfold minLotAlignedOf
  split_ifs with h
  · exact le_max_of_le_right h.le
  · exact le_refl 0

theorem qtyResultOf_quantity_nonneg (input : TradeInput) (stop : ℚ) :
    0 ≤ (qtyResultOf input stop).quantity := by
  unfold qtyResultOf
  simp only
  apply round8_nonneg
  split_ifs with h
  · exact le_max_of_le_left (roundDownToStep_nonneg _ _)
  · exact roundDownToStep_nonneg _ _

/-- Scenario A of the spec: long breakout, fixed_percent 0.3, level 100,
atr 2, rr 3, buffer ratio 0.2, risk_cash 100, fee 0.2, multiplier 1,
lot step 1, min lot 1, current price 99.5, filter enabled, range absent. -/
def scenarioAInput : TradeInput :=
  { direction := TradeDirection.long
    setup := SetupType.breakout
    level := 100
    atr := 2
    rrMultiple := 3
    stop :=
      { type := StopType.fixedPercent
        percent := some 0.3
        atrMultiple := none
        points := none }
    bufferRatio := 0.2
    rangePassed := none
    currentPrice := some 99.5
    enableAtrFilter := some true
    instrument :=
      { symbol := "TICKER"
        contractMultiplier := 1
        lotStep := 1
        minLot := 1
        feePerUnit := some 0.2
        priceTick := none }
    riskProfile :=
      { mode := RiskMode.riskCash
        accountSize := none
        riskCash := some 100
        riskPercent := none
        notional := none } }

theorem scenarioA_stop : computeStop scenarioAInput = 3 / 10 := by
  norm_num [computeStop, scenarioAInput]

theorem scenarioA_unitCost : unitCostOf scenarioAInput (3 / 10) = 1 / 2 := by
  norm_num [unitCostOf, costPerUnit, scenarioAInput]

theorem scenarioA_raw : rawQuantity scenarioAInput (1 / 2) = 200 := by
  norm_num [rawQuantity, scenarioAInput, max_def]

theorem roundDown_200_1 : roundDownToStep 200 1 = 200 := by
  norm_num [roundDownToStep, round8, EPS]

theorem roundUp_1_1 : roundUpToStep 1 1 = 1 := by
  have hc : (⌈(999999999 : ℚ) / 1000000000⌉ : ℤ) = 1 := by
    rw [Int.ceil_eq_iff]
    constructor
    · norm_num
    · norm_num
  norm_num [roundUpToStep, EPS, hc, round8]

theorem scenarioA_step : stepOf scenarioAInput = 1 := by
  norm_num [stepOf, scenarioAInput]

theorem scenarioA_minLotAligned : minLotAlignedOf scenarioAInput = 1 := by
  norm_num [minLotAlignedOf, scenarioAInput, scenarioA_step, roundUp_1_1, max_def, stepOf]

theorem round8_200 : round8 200 = 200 := by
  norm_num [round8]

theorem scenarioA_qty :
    qtyResultOf scenarioAInput (3 / 10) =
      { quantity := 200
        usedRiskCash := 100
        notional := 20000
        estFees := 40
        belowMinLot := false } := by
  simp only [qtyResultOf, scenarioA_unitCost]
  rw [scenarioA_raw, scenarioA_step, roundDown_200_1, scenarioA_minLotAligned]
  norm_num [max_def, round8_200, QtyResult.mk.injEq, decide_eq_false_iff_not,
    scenarioAInput]

/-- C1: on the concrete input of Scenario A, calculateTrade succeeds and
returns exactly the spec's stated values: stop 0.3, buffer 0.06,
tvx 100.06, slPrice 99.7, tpPrice 100.96, atrOverStop 20/3, unknown
range ratio, hasFourStops, stop within filter, no warnings, quantity 200,
notional 20000, riskCash 100, estFees 40, pnlAtTp 180, pnlAtSl -72,
stopAtrPercent 15, currentPriceToTvx -0.56. -/
theorem claim_C1_scenarioA :
    calculateTrade scenarioAInput = Except.ok
      { result :=
          { direction := TradeDirection.long
            setup := SetupType.breakout
            level := 100
            stop := 0.3
            buffer := 0.06
            tvx := 100.06
            slPrice := 99.7
            tpPrice := 100.96
            rrMultiple := 3
            atrOverStop := 20 / 3
            rangeOverStop := RangeRatio.unknown
            hasFourStops := true
            stopWithinAtrFilter := true
            warnings := []
            quantity := 200
            notional := 20000
            belowMinLot := false
            positionSummary :=
              { riskCash := 100
                estFees := 40
                pnlAtTp := 180
                pnlAtSl := -72 }
            currentPriceToTvx := some (-0.56)
            stopAtrPercent := 15 }
        meta := { usedRiskCash := 100, usedNotional := none } } := by
  rw [calculateTrade_ok_iff]
  refine ⟨?_, ?_, ?_, ?_⟩
  · norm_num [BaseValid, scenarioAInput]
  · rw [scenarioA_stop]
    norm_num
  · rw [scenarioA_stop, scenarioA_unitCost]
    norm_num
  · rw [scenarioA_stop, scenarioA_qty]
    simp only [buildResponse, collectWarnings, scenarioA_stop, computeBuffer,
      computeTvx, computeSlPrice, computeTpPrice, scenarioAInput]
    norm_num [TradeCalcResponse.mk.injEq, TradeResult.mk.injEq,
      PositionSummary.mk.injEq, CalcMeta.mk.injEq, decide_eq_true_iff,
      decide_eq_false_iff_not, computeStop]

/-- C3: for every input, the computed stop distance is exactly
(percent/100)*level for fixed_percent (percent defaulting to 0.3 when
absent), atrMultiple*atr for atr_multiple (default 0.5), and points for
fixed_points (default 0). -/
theorem claim_C3_stop_formula (input : TradeInput) :
    (input.stop.type = StopType.fixedPercent →
      (∀ p, input.stop.percent = some p →
        computeStop input = p / 100 * input.level) ∧
      (input.stop.percent = none →
        computeStop input = (3 / 10) / 100 * input.level)) ∧
    (input.stop.type = StopType.atrMultiple →
      (∀ m, input.stop.atrMultiple = some m →
        computeStop input = m * input.atr) ∧
      (input.stop.atrMultiple = none →
        computeStop input = (1 / 2) * input.atr)) ∧
    (input.stop.type = StopType.fixedPoints →
      (∀ p, input.stop.points = some p → computeStop input = p) ∧
      (input.stop.points = none → computeStop input = 0)) := by
  unfold computeStop
  refine ⟨fun h1 => ⟨fun p hp => ?_, fun hp => ?_⟩,
    fun h2 => ⟨fun m hm => ?_, fun hm => ?_⟩,
    fun h3 => ⟨fun p hp => ?_, fun hp => ?_⟩⟩
  all_goals simp_all

/-- C3 witness: scenario A uses fixed_percent with an explicit 0.3, and
the stop evaluates by the fixed_percent formula. -/
theorem claim_C3_witness :
    scenarioAInput.stop.type = StopType.fixedPercent ∧
    scenarioAInput.stop.percent = some (3 / 10) ∧
    computeStop scenarioAInput = (3 / 10) / 100 * scenarioAInput.level :=
  ⟨by norm_num [scenarioAInput], by norm_num [scenarioAInput],
    ((claim_C3_stop_formula scenarioAInput).1 (by norm_num [scenarioAInput])).1
      (3 / 10) (by norm_num [scenarioAInput])⟩

/-- C4: every input violating one of the five base-domain conditions
fails with an error (no partial result), and every input with
level <= 0 fails with the specific level message. -/
theorem claim_C4_base_validation (input : TradeInput)
    (h : input.level ≤ 0 ∨ input.atr ≤ 0 ∨ input.rrMultiple ≤ 0 ∨
      input.bufferRatio < 0 ∨ input.instrument.contractMultiplier ≤ 0) :
    (∃ e, calculateTrade input = Except.error e) ∧
    (input.level ≤ 0 → calculateTrade input = Except.error msgLevel) := by
  constructor
  · unfold calculateTrade
    split_ifs with h1 h2 h3 h4 h5 h6
    · exact ⟨msgLevel, rfl⟩
    · exact ⟨msgAtr, rfl⟩
    · exact ⟨msgRr, rfl⟩
    · exact ⟨msgBuffer, rfl⟩
    · exact ⟨msgMultiplier, rfl⟩
    · exact ⟨msgStop, rfl⟩
    · exfalso
      rcases h with h | h | h | h | h
      · exact h1 h
      · exact h2 h
      · exact h3 h
      · exact h4 h
      · exact h5 h
  · intro hl
    unfold calculateTrade
    rw [if_pos hl]

/-- C4 witness: the zero-level input built from scenario A fails with
the level error. -/
theorem claim_C4_witness :
    ({ scenarioAInput with level := 0 } : TradeInput).level ≤ 0 ∧
    calculateTrade { scenarioAInput with level := 0 } = Except.error msgLevel := by
  have hle : ({ scenarioAInput with level := 0 } : TradeInput).level ≤ 0 := by
    norm_num [scenarioAInput]
  exact ⟨hle,
    (claim_C4_base_validation { scenarioAInput with level := 0 } (Or.inl hle)).2 hle⟩

/-- C5: past base validation, calculateTrade fails exactly when the
computed stop is nonpositive or the computed unit cost is nonpositive
(non-finiteness being impossible in exact arithmetic), and every success
carries a positive stop and was computed with a positive unit cost. -/
theorem claim_C5_derived_guards (input : TradeInput) (h : BaseValid input) :
    ((∃ e, calculateTrade input = Except.error e) ↔
      computeStop input ≤ 0 ∨ unitCostOf input (computeStop input) ≤ 0) ∧
    (∀ resp, calculateTrade input = Except.ok resp →
      0 < resp.result.stop ∧ 0 < unitCostOf input (computeStop input)) := by
  obtain ⟨h1, h2, h3, h4, h5⟩ := h
  constructor
  · unfold calculateTrade calcQuantity
    rw [if_neg (not_le.mpr h1), if_neg (not_le.mpr h2), if_neg (not_le.mpr h3),
      if_neg (not_lt.mpr h4), if_neg (not_le.mpr h5)]
    split_ifs with h6 h7
    · simp [h6]
    · simp [h6, h7]
    · simp [h6, h7]
  · intro resp hok
    rw [calculateTrade_ok_iff] at hok
    obtain ⟨_, hstop, hunit, hresp⟩ := hok
    refine ⟨?_, hunit⟩
    rw [hresp]
    simpa [buildResponse] using hstop

/-- C5 witness: scenario A passes base validation and instantiates the
derived-state guard characterisation. -/
theorem claim_C5_witness :
    BaseValid scenarioAInput ∧
    (((∃ e, calculateTrade scenarioAInput = Except.error e) ↔
        computeStop scenarioAInput ≤ 0 ∨
          unitCostOf scenarioAInput (computeStop scenarioAInput) ≤ 0) ∧
      (∀ resp, calculateTrade scenarioAInput = Except.ok resp →
        0 < resp.result.stop ∧
          0 < unitCostOf scenarioAInput (computeStop scenarioAInput))) :=
  ⟨by norm_num [BaseValid, scenarioAInput],
    claim_C5_derived_guards scenarioAInput (by norm_num [BaseValid, scenarioAInput])⟩

/-- A range ratio strictly below four (false on the unknown sentinel). -/
def rangeFails : RangeRatio → Bool
  | RangeRatio.num r => decide (r < 4)
  | RangeRatio.unknown => false

/-- Shared witness input fact: scenario A succeeds, with the assembled
response. -/
theorem scenarioA_ok :
    calculateTrade scenarioAInput =
      Except.ok (buildResponse scenarioAInput
        (qtyResultOf scenarioAInput (computeStop scenarioAInput))) := by
  rw [calculateTrade_ok_iff]
  refine ⟨by norm_num [BaseValid, scenarioAInput], ?_, ?_, rfl⟩
  · rw [scenarioA_stop]
    norm_num
  · rw [scenarioA_stop, scenarioA_unitCost]
    norm_num

/-- C6: on every success the warnings are exactly the fixed-order
subsequence of the four strings, each kept iff its condition fails:
atrOverStop < 4, known range ratio < 4, filter violated, below min lot. -/
theorem claim_C6_warning_order (input : TradeInput) (resp : TradeCalcResponse)
    (h : calculateTrade input = Except.ok resp) :
    resp.result.warnings =
      (if resp.result.atrOverStop < 4 then [warnAtr] else []) ++
      (if rangeFails resp.result.rangeOverStop then [warnRange] else []) ++
      (if resp.result.stopWithinAtrFilter = false then [warnStopFilter] else []) ++
      (if resp.result.belowMinLot then [warnMinLot] else []) := by
  rw [calculateTrade_ok_iff] at h
  obtain ⟨-, -, -, hresp⟩ := h
  subst hresp
  obtain ⟨d, st, lv, atr, rr, sp, br, rp, cp, ea, ins, rpr⟩ := input
  cases rp with
  | none =>
      simp [buildResponse, collectWarnings, rangeFails, Bool.not_eq_true',
        decide_eq_true_eq]
  | some r =>
      simp [buildResponse, collectWarnings, rangeFails, Bool.not_eq_true',
        decide_eq_true_eq]

/-- C6 witness: scenario A instantiates the warning-order law. -/
theorem claim_C6_witness :
    (buildResponse scenarioAInput
      (qtyResultOf scenarioAInput (computeStop scenarioAInput))).result.warnings =
      (if (buildResponse scenarioAInput
          (qtyResultOf scenarioAInput (computeStop scenarioAInput))).result.atrOverStop < 4
        then [warnAtr] else []) ++
      (if rangeFails (buildResponse scenarioAInput
          (qtyResultOf scenarioAInput (computeStop scenarioAInput))).result.rangeOverStop
        then [warnRange] else []) ++
      (if (buildResponse scenarioAInput
          (qtyResultOf scenarioAInput (computeStop scenarioAInput))).result.stopWithinAtrFilter = false
        then [warnStopFilter] else []) ++
      (if (buildResponse scenarioAInput
          (qtyResultOf scenarioAInput (computeStop scenarioAInput))).result.belowMinLot
        then [warnMinLot] else []) :=
  claim_C6_warning_order scenarioAInput _ scenarioA_ok

/-- C9: on every success, hasFourStops holds iff atrOverStop >= 4 and the
range ratio is unknown or >= 4 (exact 4 passes), and the two ratio
warnings fire exactly when the corresponding ratio is strictly below 4. -/
theorem claim_C9_four_stops (input : TradeInput) (resp : TradeCalcResponse)
    (h : calculateTrade input = Except.ok resp) :
    (resp.result.hasFourStops = true ↔
      (4 ≤ resp.result.atrOverStop ∧
        (resp.result.rangeOverStop = RangeRatio.unknown ∨
          ∃ r, resp.result.rangeOverStop = RangeRatio.num r ∧ 4 ≤ r))) ∧
    (warnAtr ∈ resp.result.warnings ↔ resp.result.atrOverStop < 4) ∧
    (warnRange ∈ resp.result.warnings ↔
      ∃ r, resp.result.rangeOverStop = RangeRatio.num r ∧ r < 4) := by
  rw [calculateTrade_ok_iff] at h
  obtain ⟨-, -, -, hresp⟩ := h
  subst hresp
  obtain ⟨d, st, lv, atr, rr, sp, br, rp, cp, ea, ins, rpr⟩ := input
  cases rp with
  | none =>
      simp [buildResponse, collectWarnings, warnAtr, warnRange, warnStopFilter,
        warnMinLot, Bool.not_eq_true', decide_eq_true_eq, not_lt]
  | some r =>
      simp [buildResponse, collectWarnings, warnAtr, warnRange, warnStopFilter,
        warnMinLot, Bool.not_eq_true', decide_eq_true_eq, not_lt]

/-- C9 witness: scenario A instantiates the four-stops law. -/
theorem claim_C9_witness :
    ((buildResponse scenarioAInput
        (qtyResultOf scenarioAInput (computeStop scenarioAInput))).result.hasFourStops = true ↔
      (4 ≤ (buildResponse scenarioAInput
          (qtyResultOf scenarioAInput (computeStop scenarioAInput))).result.atrOverStop ∧
        ((buildResponse scenarioAInput
            (qtyResultOf scenarioAInput (computeStop scenarioAInput))).result.rangeOverStop = RangeRatio.unknown ∨
          ∃ r, (buildResponse scenarioAInput
              (qtyResultOf scenarioAInput (computeStop scenarioAInput))).result.rangeOverStop = RangeRatio.num r ∧ 4 ≤ r))) ∧
    (warnAtr ∈ (buildResponse scenarioAInput
        (qtyResultOf scenarioAInput (computeStop scenarioAInput))).result.warnings ↔
      (buildResponse scenarioAInput
        (qtyResultOf scenarioAInput (computeStop scenarioAInput))).result.atrOverStop < 4) ∧
    (warnRange ∈ (buildResponse scenarioAInput
        (qtyResultOf scenarioAInput (computeStop scenarioAInput))).result.warnings ↔
      ∃ r, (buildResponse scenarioAInput
          (qtyResultOf scenarioAInput (computeStop scenarioAInput))).result.rangeOverStop = RangeRatio.num r ∧ r < 4) :=
  claim_C9_four_stops scenarioAInput _ scenarioA_ok

/-- C10: on every success, in both directions the projections reduce to
pnlAtTp = rr * stop * quantity * contractMultiplier (nonnegative) and
pnlAtSl = -(stop + buffer) * quantity * contractMultiplier (nonpositive). -/
theorem claim_C10_pnl (input : TradeInput) (resp : TradeCalcResponse)
    (h : calculateTrade input = Except.ok resp) :
    resp.result.positionSummary.pnlAtTp =
      resp.result.rrMultiple * resp.result.stop * resp.result.quantity *
        input.instrument.contractMultiplier ∧
    resp.result.positionSummary.pnlAtSl =
      -((resp.result.stop + resp.result.buffer) * resp.result.quantity *
        input.instrument.contractMultiplier) ∧
    0 ≤ resp.result.positionSummary.pnlAtTp ∧
    resp.result.positionSummary.pnlAtSl ≤ 0 := by
  rw [calculateTrade_ok_iff] at h
  obtain ⟨⟨-, -, hrr, hbr, hcm⟩, hstop, -, hresp⟩ := h
  subst hresp
  have hq := qtyResultOf_quantity_nonneg input (computeStop input)
  have htp : (buildResponse input (qtyResultOf input (computeStop input))).result.positionSummary.pnlAtTp =
      input.rrMultiple * computeStop input *
        (qtyResultOf input (computeStop input)).quantity *
        input.instrument.contractMultiplier := by
    cases hd : input.direction with
    | long =>
        simp only [buildResponse, computeTpPrice, computeTvx, computeBuffer,
          computeSlPrice, hd]
        ring
    | short =>
        simp only [buildResponse, computeTpPrice, computeTvx, computeBuffer,
          computeSlPrice, hd]
        ring
  have hsl : (buildResponse input (qtyResultOf input (computeStop input))).result.positionSummary.pnlAtSl =
      -((computeStop input + computeStop input * input.bufferRatio) *
        (qtyResultOf input (computeStop input)).quantity *
        input.instrument.contractMultiplier) := by
    cases hd : input.direction with
    | long =>
        simp only [buildResponse, computeTpPrice, computeTvx, computeBuffer,
          computeSlPrice, hd]
        ring
    | short =>
        simp only [buildResponse, computeTpPrice, computeTvx, computeBuffer,
          computeSlPrice, hd]
        ring
  have hfields :
      (buildResponse input (qtyResultOf input (computeStop input))).result.rrMultiple = input.rrMultiple ∧
      (buildResponse input (qtyResultOf input (computeStop input))).result.stop = computeStop input ∧
      (buildResponse input (qtyResultOf input (computeStop input))).result.buffer =
        computeStop input * input.bufferRatio ∧
      (buildResponse input (qtyResultOf input (computeStop input))).result.quantity =
        (qtyResultOf input (computeStop input)).quantity := by
    refine ⟨?_, ?_, ?_, ?_⟩ <;> simp [buildResponse, computeBuffer]
  obtain ⟨hf1, hf2, hf3, hf4⟩ := hfields
  refine ⟨?_, ?_, ?_, ?_⟩
  · rw [htp, hf1, hf2, hf4]
  · rw [hsl, hf2, hf3, hf4]
  · rw [htp]
    have : 0 ≤ input.rrMultiple * computeStop input *
        (qtyResultOf input (computeStop input)).quantity := by
      apply mul_nonneg (mul_nonneg hrr.le hstop.le) hq
    exact mul_nonneg this hcm.le
  · rw [hsl]
    rw [neg_nonpos]
    have hsb : 0 ≤ computeStop input + computeStop input * input.bufferRatio := by
      have := mul_nonneg hstop.le hbr
      linarith
    exact mul_nonneg (mul_nonneg hsb hq) hcm.le

/-- C10 witness: scenario A instantiates the P&L closed forms. -/
theorem claim_C10_witness :
    (buildResponse scenarioAInput
        (qtyResultOf scenarioAInput (computeStop scenarioAInput))).result.positionSummary.pnlAtTp =
      (buildResponse scenarioAInput
          (qtyResultOf scenarioAInput (computeStop scenarioAInput))).result.rrMultiple *
        (buildResponse scenarioAInput
            (qtyResultOf scenarioAInput (computeStop scenarioAInput))).result.stop *
        (buildResponse scenarioAInput
            (qtyResultOf scenarioAInput (computeStop scenarioAInput))).result.quantity *
        scenarioAInput.instrument.contractMultiplier ∧
    (buildResponse scenarioAInput
        (qtyResultOf scenarioAInput (computeStop scenarioAInput))).result.positionSummary.pnlAtSl =
      -(((buildResponse scenarioAInput
            (qtyResultOf scenarioAInput (computeStop scenarioAInput))).result.stop +
          (buildResponse scenarioAInput
              (qtyResultOf scenarioAInput (computeStop scenarioAInput))).result.buffer) *
        (buildResponse scenarioAInput
            (qtyResultOf scenarioAInput (computeStop scenarioAInput))).result.quantity *
        scenarioAInput.instrument.contractMultiplier) ∧
    0 ≤ (buildResponse scenarioAInput
        (qtyResultOf scenarioAInput (computeStop scenarioAInput))).result.positionSummary.pnlAtTp ∧
    (buildResponse scenarioAInput
        (qtyResultOf scenarioAInput (computeStop scenarioAInput))).result.positionSummary.pnlAtSl ≤ 0 :=
  claim_C10_pnl scenarioAInput _ scenarioA_ok

/-- Scenario A, but with enableAtrFilter left absent and a 50-percent stop
(stop 50, far beyond 0.2*atr = 0.4). -/
def c2Input : TradeInput :=
  { scenarioAInput with
    enableAtrFilter := none
    stop :=
      { type := StopType.fixedPercent
        percent := some 50
        atrMultiple := none
        points := none } }

/-- C2 (divergence witness): with enableAtrFilter absent the source's
`!input.enableAtrFilter` reads the field as falsy, so the call succeeds
with stopWithinAtrFilter = true even though stop = 50 > 0.2 * atr; the
declared default (true, filter enabled) would demand false here. -/
theorem claim_C2_code_divergence :
    c2Input.enableAtrFilter = none ∧
    1 / 5 * c2Input.atr < computeStop c2Input ∧
    (calculateTrade c2Input).toOption.map
      (fun r => r.result.stopWithinAtrFilter) = some true := by
  have hstop : computeStop c2Input = 50 := by
    norm_num [computeStop, c2Input, scenarioAInput]
  have hok : calculateTrade c2Input =
      Except.ok (buildResponse c2Input (qtyResultOf c2Input (computeStop c2Input))) := by
    rw [calculateTrade_ok_iff]
    refine ⟨by norm_num [BaseValid, c2Input, scenarioAInput], ?_, ?_, rfl⟩
    · rw [hstop]
      norm_num
    · rw [hstop]
      norm_num [unitCostOf, costPerUnit, c2Input, scenarioAInput]
  refine ⟨rfl, ?_, ?_⟩
  · rw [hstop]
    norm_num [c2Input, scenarioAInput]
  · rw [hok]
    simp [Except.toOption, buildResponse, c2Input]

/-- Counterexample input for C7: lotStep 100 with a tiny positive minLot
(5e-8) that the epsilon ceil rounds down to 0, so the min-lot floor forces
a final quantity of 5e-8, not near any multiple of 100. -/
def c7Input : TradeInput :=
  { direction := TradeDirection.long
    setup := SetupType.breakout
    level := 100
    atr := 2
    rrMultiple := 3
    stop :=
      { type := StopType.fixedPoints
        percent := none
        atrMultiple := none
        points := some 1 }
    bufferRatio := 0
    rangePassed := none
    currentPrice := none
    enableAtrFilter := some true
    instrument :=
      { symbol := "TICKER"
        contractMultiplier := 1
        lotStep := 100
        minLot := 1 / 20000000
        feePerUnit := some 0
        priceTick := none }
    riskProfile :=
      { mode := RiskMode.riskCash
        accountSize := none
        riskCash := some 0
        riskPercent := none
        notional := none } }

theorem c7_stop : computeStop c7Input = 1 := by
  norm_num [computeStop, c7Input]

theorem c7_unit : unitCostOf c7Input 1 = 1 := by
  norm_num [unitCostOf, costPerUnit, c7Input]

theorem c7_raw : rawQuantity c7Input 1 = 0 := by
  norm_num [rawQuantity, c7Input, max_def]

theorem c7_step : stepOf c7Input = 100 := by
  norm_num [stepOf, c7Input]

theorem roundDown_0_100 : roundDownToStep 0 100 = 0 := by
  norm_num [roundDownToStep, round8, EPS]

theorem roundUp_c7 : roundUpToStep (1 / 20000000) 100 = 0 := by
  have hc : (⌈(-((1 : ℚ) / 2000000000))⌉ : ℤ) = 0 := by
    rw [Int.ceil_eq_iff]
    constructor
    · norm_num
    · norm_num
  norm_num [roundUpToStep, EPS, hc, round8]

theorem c7_minLotAligned : minLotAlignedOf c7Input = 1 / 20000000 := by
  norm_num [minLotAlignedOf, c7Input, stepOf, roundUp_c7, max_def]

theorem c7_qty : (qtyResultOf c7Input (computeStop c7Input)).quantity = 1 / 20000000 := by
  rw [c7_stop]
  simp only [qtyResultOf, c7_unit, c7_raw, c7_step, roundDown_0_100, c7_minLotAligned]
  norm_num [max_def, round8]

theorem c7_ok : calculateTrade c7Input =
    Except.ok (buildResponse c7Input (qtyResultOf c7Input (computeStop c7Input))) := by
  rw [calculateTrade_ok_iff]
  refine ⟨by norm_num [BaseValid, c7Input], ?_, ?_, rfl⟩
  · rw [c7_stop]
    norm_num
  · rw [c7_stop, c7_unit]
    norm_num

/-- C7 counterexample: on c7Input the call succeeds with lotStep 100 > 0,
yet the returned quantity 5e-8 is farther than 1e-8 from every
nonnegative-integer multiple of lotStep. -/
theorem claim_C7_counterexample :
    c7Input.instrument.lotStep = 100 ∧
    (calculateTrade c7Input).toOption.map (fun r => r.result.quantity) =
      some (1 / 20000000) ∧
    ∀ k : ℕ, 1 / 100000000 < |(1 / 20000000 : ℚ) - (k : ℚ) * 100| := by
  refine ⟨rfl, ?_, ?_⟩
  · rw [c7_ok]
    simp only [Except.toOption, Option.map, Option.some.injEq]
    simpa [buildResponse] using c7_qty
  · intro k
    cases k with
    | zero =>
        rw [abs_of_nonneg (by norm_num)]
        norm_num
    | succ n =>
        have hn : (0 : ℚ) ≤ (n : ℚ) := Nat.cast_nonneg n
        push_cast
        rw [abs_sub_comm, abs_of_nonneg (by nlinarith)]
        nlinarith

/-- C7 amended: on every success with lotStep > 0, and provided the
min-lot floor is itself step-aligned (minLot nonpositive, or minLot at
most its epsilon-ceil rounding to the step), the returned quantity is
within 1e-8 of a nonnegative-integer multiple of lotStep; the unqualified
claim fails when a positive minLot exceeds its step rounding (see the
counterexample). -/
theorem claim_C7_amended (input : TradeInput) (resp : TradeCalcResponse)
    (h : calculateTrade input = Except.ok resp)
    (hstep : 0 < input.instrument.lotStep)
    (hmin : input.instrument.minLot ≤ 0 ∨
      input.instrument.minLot ≤
        roundUpToStep input.instrument.minLot input.instrument.lotStep) :
    ∃ k : ℕ, |resp.result.quantity - (k : ℚ) * input.instrument.lotStep| ≤
      1 / 100000000 := by
  rw [calculateTrade_ok_iff] at h
  obtain ⟨-, -, -, hresp⟩ := h
  subst hresp
  have hproj : (buildResponse input (qtyResultOf input (computeStop input))).result.quantity =
      (qtyResultOf input (computeStop input)).quantity := by
    simp [buildResponse]
  rw [hproj]
  have hstepOf : stepOf input = input.instrument.lotStep := by
    simp [stepOf, hstep]
  have key : ∀ v : ℚ,
      (∃ k : ℕ, v = round8 ((k : ℚ) * input.instrument.lotStep)) →
      ∃ k : ℕ, |round8 v - (k : ℚ) * input.instrument.lotStep| ≤ 1 / 100000000 := by
    rintro v ⟨k, rfl⟩
    refine ⟨k, ?_⟩
    rw [round8_idem]
    exact (round8_close _).trans (by norm_num)
  obtain ⟨k1, hk1⟩ := roundDownToStep_mul
    (rawQuantity input (unitCostOf input (computeStop input))) (stepOf input)
    (stepOf_pos input) (rawQuantity_nonneg input _)
  simp only [qtyResultOf]
  apply key
  split_ifs with hml
  · rcases hmin with hle | hle2
    · exfalso
      have h0 : minLotAlignedOf input = 0 := by
        simp [minLotAlignedOf, not_lt.mpr hle]
      rw [h0] at hml
      exact lt_irrefl 0 hml
    · have hmlpos : 0 < input.instrument.minLot := by
        by_contra hc
        push_neg at hc
        have h0 : minLotAlignedOf input = 0 := by
          simp [minLotAlignedOf, not_lt.mpr hc]
        rw [h0] at hml
        exact lt_irrefl 0 hml
      have hmla : minLotAlignedOf input =
          roundUpToStep input.instrument.minLot input.instrument.lotStep := by
        rw [minLotAlignedOf, if_pos hmlpos, hstepOf]
        exact max_eq_left hle2
      obtain ⟨k2, hk2⟩ := roundUpToStep_mul input.instrument.minLot
        input.instrument.lotStep hstep hmlpos
      rw [hmla, hk2, hk1, hstepOf]
      rcases max_choice (round8 ((k1 : ℚ) * input.instrument.lotStep))
        (round8 ((k2 : ℚ) * input.instrument.lotStep)) with hmax | hmax
      · rw [hmax]
        exact ⟨k1, rfl⟩
      · rw [hmax]
        exact ⟨k2, rfl⟩
  · rw [hk1, hstepOf]
    exact ⟨k1, rfl⟩

/-- C7 witness: scenario A (lotStep 1, minLot 1 already aligned)
instantiates the amended multiple-of-lot-step law. -/
theorem claim_C7_witness :
    calculateTrade scenarioAInput =
      Except.ok (buildResponse scenarioAInput
        (qtyResultOf scenarioAInput (computeStop scenarioAInput))) ∧
    0 < scenarioAInput.instrument.lotStep ∧
    (scenarioAInput.instrument.minLot ≤ 0 ∨
      scenarioAInput.instrument.minLot ≤
        roundUpToStep scenarioAInput.instrument.minLot
          scenarioAInput.instrument.lotStep) ∧
    ∃ k : ℕ,
      |(buildResponse scenarioAInput
          (qtyResultOf scenarioAInput (computeStop scenarioAInput))).result.quantity -
        (k : ℚ) * scenarioAInput.instrument.lotStep| ≤ 1 / 100000000 := by
  have hs : 0 < scenarioAInput.instrument.lotStep := by norm_num [scenarioAInput]
  have hm : scenarioAInput.instrument.minLot ≤ 0 ∨
      scenarioAInput.instrument.minLot ≤
        roundUpToStep scenarioAInput.instrument.minLot
          scenarioAInput.instrument.lotStep := by
    right
    have : roundUpToStep scenarioAInput.instrument.minLot
        scenarioAInput.instrument.lotStep = roundUpToStep 1 1 := by norm_num [scenarioAInput]
    rw [this, roundUp_1_1]
    norm_num [scenarioAInput]
  exact ⟨scenarioA_ok, hs, hm,
    claim_C7_amended scenarioAInput _ scenarioA_ok hs hm⟩

/-- Counterexample input for C8: minLot = 100 + 7e-9 has more than 8
decimal places, exceeds its epsilon-ceil step rounding (100), and so is
used verbatim as the min-lot floor; the final toFixed(8) then moves the
quantity off that floor. -/
def c8Input : TradeInput :=
  { direction := TradeDirection.long
    setup := SetupType.breakout
    level := 100
    atr := 2
    rrMultiple := 3
    stop :=
      { type := StopType.fixedPoints
        percent := none
        atrMultiple := none
        points := some 1 }
    bufferRatio := 0
    rangePassed := none
    currentPrice := none
    enableAtrFilter := some true
    instrument :=
      { symbol := "TICKER"
        contractMultiplier := 1
        lotStep := 100
        minLot := 100000000007 / 1000000000
        feePerUnit := some 0
        priceTick := none }
    riskProfile :=
      { mode := RiskMode.riskCash
        accountSize := none
        riskCash := some 0
        riskPercent := none
        notional := none } }

theorem c8_stop : computeStop c8Input = 1 := by
  norm_num [computeStop, c8Input]

theorem c8_unit : unitCostOf c8Input 1 = 1 := by
  norm_num [unitCostOf, costPerUnit, c8Input]

theorem c8_raw : rawQuantity c8Input 1 = 0 := by
  norm_num [rawQuantity, c8Input, max_def]

theorem c8_step : stepOf c8Input = 100 := by
  norm_num [stepOf, c8Input]

theorem roundUp_c8 : roundUpToStep (100000000007 / 1000000000) 100 = 100 := by
  have hc : (⌈(99999999907 : ℚ) / 100000000000⌉ : ℤ) = 1 := by
    rw [Int.ceil_eq_iff]
    constructor
    · norm_num
    · norm_num
  norm_num [roundUpToStep, EPS, hc, round8]

theorem c8_minLotAligned :
    minLotAlignedOf c8Input = 100000000007 / 1000000000 := by
  norm_num [minLotAlignedOf, c8Input, stepOf, roundUp_c8, max_def]

theorem c8_qty :
    (qtyResultOf c8Input (computeStop c8Input)).quantity =
      10000000001 / 100000000 := by
  rw [c8_stop]
  simp only [qtyResultOf, c8_unit, c8_raw, c8_step, roundDown_0_100,
    c8_minLotAligned]
  norm_num [max_def, round8]

theorem c8_ok : calculateTrade c8Input =
    Except.ok (buildResponse c8Input (qtyResultOf c8Input (computeStop c8Input))) := by
  rw [calculateTrade_ok_iff]
  refine ⟨by norm_num [BaseValid, c8Input], ?_, ?_, rfl⟩
  · rw [c8_stop]
    norm_num
  · rw [c8_stop, c8_unit]
    norm_num

/-- C8 counterexample: on c8Input the min-lot threshold is positive and
max(roundedQty, minLotThreshold) = 100 + 7e-9, but the call returns
quantity 100.00000001 — the final 8-decimal re-round makes them differ. -/
theorem claim_C8_counterexample :
    0 < minLotAlignedOf c8Input ∧
    (calculateTrade c8Input).toOption.map (fun r => r.result.quantity) =
      some (10000000001 / 100000000) ∧
    max (roundDownToStep (rawQuantity c8Input
        (unitCostOf c8Input (computeStop c8Input))) (stepOf c8Input))
      (minLotAlignedOf c8Input) = 100000000007 / 1000000000 ∧
    (10000000001 / 100000000 : ℚ) ≠ 100000000007 / 1000000000 := by
  refine ⟨?_, ?_, ?_, by norm_num⟩
  · rw [c8_minLotAligned]
    norm_num
  · rw [c8_ok]
    simp only [Except.toOption, Option.map, Option.some.injEq]
    simpa [buildResponse] using c8_qty
  · rw [c8_stop, c8_unit, c8_raw, c8_step, roundDown_0_100, c8_minLotAligned]
    norm_num [max_def]

/-- C8 amended: on every success the returned quantity is the 8-decimal
re-rounding of max(roundedQty, minLotThreshold) when the threshold is
positive (and of roundedQty otherwise), and belowMinLot holds iff the
threshold is positive, the lot-rounded raw quantity is strictly below it,
and the final (re-rounded) quantity is positive; without the final
8-decimal re-round the equality fails (see the counterexample). -/
theorem claim_C8_amended (input : TradeInput) (resp : TradeCalcResponse)
    (h : calculateTrade input = Except.ok resp) :
    (resp.result.quantity =
      round8 (if 0 < minLotAlignedOf input then
          max (roundDownToStep (rawQuantity input
              (unitCostOf input (computeStop input))) (stepOf input))
            (minLotAlignedOf input)
        else roundDownToStep (rawQuantity input
            (unitCostOf input (computeStop input))) (stepOf input))) ∧
    (resp.result.belowMinLot = true ↔
      (0 < minLotAlignedOf input ∧
        roundDownToStep (rawQuantity input
            (unitCostOf input (computeStop input))) (stepOf input) <
          minLotAlignedOf input ∧
        0 < resp.result.quantity)) := by
  rw [calculateTrade_ok_iff] at h
  obtain ⟨-, -, -, hresp⟩ := h
  subst hresp
  constructor
  · simp [buildResponse, qtyResultOf]
  · simp [buildResponse, qtyResultOf, decide_eq_true_eq]

/-- C8 witness: scenario A instantiates the amended sizing law. -/
theorem claim_C8_witness :
    ((buildResponse scenarioAInput
        (qtyResultOf scenarioAInput (computeStop scenarioAInput))).result.quantity =
      round8 (if 0 < minLotAlignedOf scenarioAInput then
          max (roundDownToStep (rawQuantity scenarioAInput
              (unitCostOf scenarioAInput (computeStop scenarioAInput)))
            (stepOf scenarioAInput))
            (minLotAlignedOf scenarioAInput)
        else roundDownToStep (rawQuantity scenarioAInput
            (unitCostOf scenarioAInput (computeStop scenarioAInput)))
          (stepOf scenarioAInput))) ∧
    ((buildResponse scenarioAInput
        (qtyResultOf scenarioAInput (computeStop scenarioAInput))).result.belowMinLot = true ↔
      (0 < minLotAlignedOf scenarioAInput ∧
        roundDownToStep (rawQuantity scenarioAInput
            (unitCostOf scenarioAInput (computeStop scenarioAInput)))
          (stepOf scenarioAInput) < minLotAlignedOf scenarioAInput ∧
        0 < (buildResponse scenarioAInput
            (qtyResultOf scenarioAInput (computeStop scenarioAInput))).result.quantity)) :=
  claim_C8_amended scenarioAInput _ scenarioA_ok
